import Mathlib

/-!
Verification of `python_utils/wdb0.py` (hourly point-observation retrieval,
row-to-matrix pivoting, and pickle-file caching).

The development shallowly embeds the parts of the module that the properties
under scrutiny depend on:

* timestamps are integers (seconds); Python's `timedelta` normalization
  (`days`, `seconds`) and the hour-index arithmetic
  `td.days * 24 + td.seconds // 3600` are embedded exactly;
* the pivot loop of `get_snow_depth_obs` (wdb0.py lines 118-171) is embedded
  as a fold over the row list, including numpy masked-array semantics:
  negative indices wrap around, indices outside `[-n, n)` raise `IndexError`;
  the `try/except` + `exit(1)` of `get_snow_depth_obs` and the unguarded
  assignment of `get_swe_obs` give two different outcome constructors;
* the caching control flow (which calls read the pickle file and which write
  it) is embedded as pure functions of the facts the code branches on:
  whether a bounding box was passed, whether `scratch_dir` was passed,
  whether the cache file exists, and the lag `utcnow - end_datetime`;
* the SQL queries built by the module are embedded by their standard
  relational semantics over a store modelled as a list of rows.
-/

namespace Wdb0

/-- Hour index computed by the source from a Python `timedelta`:
`time_diff.days * 24 + time_diff.seconds // 3600` (wdb0.py lines 50-51,
155-156).  Python normalizes a timedelta of `s` seconds to
`days = s // 86400` and `seconds = s % 86400`; Python's `//` and `%` on a
positive divisor agree with Lean's `/` and `%` on `Int`. -/
def pyHourIndex (s : Int) : Int :=
  (s / 86400) * 24 + (s % 86400) / 3600

/-- `num_hours = time_range.days * 24 + time_range.seconds // 3600 + 1`
(wdb0.py lines 50-51) for a range query `[b, e]`. -/
def numHours (b e : Int) : Int :=
  pyHourIndex (e - b) + 1

/-- `time_ind = time_diff.days * 24 + time_diff.seconds // 3600` where
`time_diff = row['date'] - begin_datetime` (wdb0.py lines 155-156). -/
def slotIndex (b date : Int) : Int :=
  pyHourIndex (date - b)

/-- A cell of the numpy masked array `obs`: the stored fill datum and the
parallel mask flag (`no_data_value` is assigned first, then `np.ma.masked`,
wdb0.py lines 128-130). -/
structure Cell where
  data : ℚ
  mask : Bool
deriving DecidableEq, Repr

/-- The state of a cell after `obs[i,:] = no_data_value; obs[i,:] = np.ma.masked`. -/
def mkMasked (ndv : ℚ) : Cell :=
  { data := ndv, mask := true }

/-- One row of the query result `DataFrame` (wdb0.py lines 104-114), with the
value already unit-converted by the SQL select list. -/
structure ObsRow where
  obj_identifier : Int
  station_id : String
  name : String
  lon : ℚ
  lat : ℚ
  elevation : Int
  recorded_elevation : Int
  date : Int
  value : ℚ
deriving DecidableEq, Repr

/-- Loop state of the pivot section (wdb0.py lines 118-130): the growing
per-station metadata lists and the masked observation array. -/
structure PivotState where
  station_ind : Int
  current_station_obj_id : Int
  station_obj_id : List Int
  station_id : List String
  station_name : List String
  station_lon : List ℚ
  station_lat : List ℚ
  station_elevation : List Int
  station_rec_elevation : List Int
  obs : List (List Cell)
deriving DecidableEq, Repr

/-- Initial pivot state: `station_ind = -1`, `current_station_obj_id = -1`,
empty metadata lists, and `obs = np.ma.empty([1, num_hours])` filled with the
masked no-data marker (wdb0.py lines 118-130). -/
def initState (n : Nat) (ndv : ℚ) : PivotState :=
  { station_ind := -1
    current_station_obj_id := -1
    station_obj_id := []
    station_id := []
    station_name := []
    station_lon := []
    station_lat := []
    station_elevation := []
    station_rec_elevation := []
    obs := [List.replicate n (mkMasked ndv)] }

/-- Resolve a (possibly negative) numpy index against an axis of length
`len`: a negative index wraps around from the end, anything outside
`[-len, len)` is an `IndexError`. -/
def npRowIdx (len : Nat) (i : Int) : Option Nat :=
  if 0 ≤ i ∧ i < (len : Int) then some i.toNat
  else if -(len : Int) ≤ i ∧ i < 0 then some ((len : Int) + i).toNat
  else none

/-- Semantics of `obs[station_ind, time_ind] = v` on the masked array:
resolve both indices with numpy wraparound, write an unmasked cell, or report
`none` for an `IndexError`. -/
def npSet2 (obs : List (List Cell)) (si ti : Int) (v : ℚ) :
    Option (List (List Cell)) :=
  match npRowIdx obs.length si with
  | none => none
  | some s =>
    match obs.get? s with
    | none => none
    | some row =>
      match npRowIdx row.length ti with
      | none => none
      | some t => some (obs.set s (row.set t { data := v, mask := false }))

/-- Diagnostic context printed by the `except` branch of
`get_snow_depth_obs` (wdb0.py lines 158-166): `num_hours`,
`(station_ind, time_ind)`, `obs`, `obs.shape`, and the offending row. -/
structure PivotFault where
  num_hours : Nat
  station_ind : Int
  time_ind : Int
  obs : List (List Cell)
  shape : Nat × Nat
  row : ObsRow
deriving DecidableEq, Repr

/-- The new-station branch of the pivot loop (wdb0.py lines 132-152):
increment `station_ind`, append a fresh all-masked row to `obs` for every
station after the first, append the row's station metadata, and reload
`current_station_obj_id` from `station_obj_id[station_ind]`. -/
def openStation (n : Nat) (ndv : ℚ) (st : PivotState) (row : ObsRow) :
    PivotState :=
  let station_ind := st.station_ind + 1
  let obs :=
    if station_ind > 0 then st.obs ++ [List.replicate n (mkMasked ndv)]
    else st.obs
  let station_obj_id := st.station_obj_id ++ [row.obj_identifier]
  { station_ind := station_ind
    current_station_obj_id := station_obj_id.getD station_ind.toNat (-1)
    station_obj_id := station_obj_id
    station_id := st.station_id ++ [row.station_id]
    station_name := st.station_name ++ [row.name]
    station_lon := st.station_lon ++ [row.lon]
    station_lat := st.station_lat ++ [row.lat]
    station_elevation := st.station_elevation ++ [row.elevation]
    station_rec_elevation :=
      st.station_rec_elevation ++ [row.recorded_elevation]
    obs := obs }

/-- One iteration of the pivot loop (wdb0.py lines 131-166): open a new
station block when the row's `obj_identifier` differs from the current one,
then write the row's value at the computed `time_ind`. -/
def pivotStep (b : Int) (n : Nat) (ndv : ℚ) (st : PivotState) (row : ObsRow) :
    Except PivotFault PivotState :=
  let st' :=
    if row.obj_identifier ≠ st.current_station_obj_id then openStation n ndv st row
    else st
  let time_ind := slotIndex b row.date
  match npSet2 st'.obs st'.station_ind time_ind row.value with
  | some obs2 => .ok { st' with obs := obs2 }
  | none =>
      .error { num_hours := n
               station_ind := st'.station_ind
               time_ind := time_ind
               obs := st'.obs
               shape := (st'.obs.length, n)
               row := row }

/-- The whole pivot loop `for ind, row in df.iterrows(): ...` as a monadic
fold in `Except` (the first failing assignment aborts the loop). -/
def pivotScan (b : Int) (n : Nat) (ndv : ℚ) (rows : List ObsRow) :
    Except PivotFault PivotState :=
  rows.foldlM (pivotStep b n ndv) (initState n ndv)

/-- The result dictionary built at wdb0.py lines 168-184: `num_stations =
station_ind + 1`, the metadata lists, `obs_datetime = [begin + i hours]`,
and the values array. -/
structure ObsResult where
  num_stations : Int
  num_hours : Int
  station_obj_id : List Int
  station_id : List String
  station_name : List String
  station_lon : List ℚ
  station_lat : List ℚ
  station_elevation : List Int
  station_rec_elevation : List Int
  obs_datetime : List Int
  values : List (List Cell)
deriving DecidableEq, Repr

/-- Packaging of the final pivot state into the returned dictionary
(wdb0.py lines 168-184). -/
def finalize (b : Int) (n : Nat) (st : PivotState) : ObsResult :=
  { num_stations := st.station_ind + 1
    num_hours := (n : Int)
    station_obj_id := st.station_obj_id
    station_id := st.station_id
    station_name := st.station_name
    station_lon := st.station_lon
    station_lat := st.station_lat
    station_elevation := st.station_elevation
    station_rec_elevation := st.station_rec_elevation
    obs_datetime := (List.range n).map (fun (i : Nat) => b + 3600 * (i : Int))
    values := st.obs }

/-- Outcome of a pivot run: a returned result, the `except` branch of
`get_snow_depth_obs` (diagnostics printed, then `exit(1)` terminates the
process), or the unhandled `IndexError` of `get_swe_obs`, which has no
`try` around the assignment. -/
inductive PivotOutcome
  | ok (m : ObsResult)
  | exit1 (f : PivotFault)
  | unhandled (f : PivotFault)
deriving DecidableEq, Repr

/-- The result dictionary when the outcome is a normal return. -/
def PivotOutcome.result? : PivotOutcome → Option ObsResult
  | .ok m => some m
  | .exit1 _ => none
  | .unhandled _ => none

/-- Pivot portion of `get_snow_depth_obs` (wdb0.py lines 50-51 and 118-194):
compute `num_hours` from the window, scan the rows, and either return the
dictionary or hit the `except` branch that prints diagnostics and calls
`exit(1)`. -/
def get_snow_depth_obs_pivot (b e : Int) (ndv : ℚ) (rows : List ObsRow) :
    PivotOutcome :=
  match pivotScan b (numHours b e).toNat ndv rows with
  | .ok st => .ok (finalize b (numHours b e).toNat st)
  | .error f => .exit1 f

/-- Pivot portion of `get_swe_obs` (wdb0.py lines 230-353): identical loop,
but the assignment `obs[station_ind, time_ind] = ...` (line 335) has no
`try/except`, so an out-of-range index is an unhandled `IndexError`. -/
def get_swe_obs_pivot (b e : Int) (ndv : ℚ) (rows : List ObsRow) :
    PivotOutcome :=
  match pivotScan b (numHours b e).toNat ndv rows with
  | .ok st => .ok (finalize b (numHours b e).toNat st)
  | .error f => .unhandled f

/-- Cache behaviour of one call: whether a previously written pickle file was
deserialized and returned, and whether a fresh result was pickled on exit. -/
structure CacheTrace where
  readCache : Bool
  wroteCache : Bool
deriving DecidableEq, Repr

/-- `timedelta(days=60)` in seconds: the staleness threshold compared against
`lag = dt.datetime.utcnow() - end_datetime`. -/
def sixtyDays : Int := 60 * 86400

/-- Cache control flow of `get_snow_depth_obs` (wdb0.py lines 33-48 and
186-192): the pickle file is read whenever `os.path.isfile` finds it and
written whenever `lag > timedelta(days=60)`; neither branch inspects
`bounding_box` or `scratch_dir` (`scratch_dir` only prefixes the file name).
`get_swe_obs` (lines 213-228, 355-361) and `get_swe_obs_df` (lines 388-403,
471-477) have the same control flow. -/
def snow_depth_cache_gate (bboxGiven scratchGiven fileExists : Bool)
    (lag : Int) : CacheTrace :=
  if fileExists then { readCache := true, wroteCache := false }
  else { readCache := false, wroteCache := decide (lag > sixtyDays) }

/-- Cache control flow of `get_air_temp_obs` (wdb0.py lines 694-712 and
841-850): the read happens only when `bounding_box is None`, `scratch_dir`
was supplied and the file exists (the `isfile` test is nested inside both
guards); the write happens when `bounding_box is None` and
`lag > timedelta(days=60)`, with no guard on `scratch_dir`. -/
def air_temp_cache_gate (bboxGiven scratchGiven fileExists : Bool)
    (lag : Int) : CacheTrace :=
  if !bboxGiven && scratchGiven && fileExists then
    { readCache := true, wroteCache := false }
  else
    { readCache := false
      wroteCache := !bboxGiven && decide (lag > sixtyDays) }

/-- Cache control flow of `get_prev_snow_depth_obs` (wdb0.py lines 501-519
and 668-677): same guards as `get_air_temp_obs`. -/
def prev_snow_depth_cache_gate (bboxGiven scratchGiven fileExists : Bool)
    (lag : Int) : CacheTrace :=
  if !bboxGiven && scratchGiven && fileExists then
    { readCache := true, wroteCache := false }
  else
    { readCache := false
      wroteCache := !bboxGiven && decide (lag > sixtyDays) }

/-- The observation variables served by the module, one query function per
variable. -/
inductive ObsVariable
  | depth
  | swe
  | airTemp
  | snowfall
  | precip
deriving DecidableEq, Repr

/-- A row of the store relation for one variable, joined with
`point.allstation`: the raw (not yet converted) value may be SQL `NULL`. -/
structure StoreRow where
  obj_identifier : Int
  station_id : String
  name : String
  lon : ℚ
  lat : ℚ
  elevation : Int
  recorded_elevation : Int
  date : Int
  value : Option ℚ
deriving DecidableEq, Repr

/-- The `WHERE` clause of the range query (wdb0.py lines 73-81):
`date >= begin AND date <= end AND value IS NOT NULL`. -/
def rangeWhere (b e : Int) (r : StoreRow) : Bool :=
  decide (b ≤ r.date) && decide (r.date ≤ e) && r.value.isSome

/-- The sort order of `ORDER BY obj_identifier, date` (wdb0.py line 94). -/
def rowKeyLe (r s : StoreRow) : Prop :=
  r.obj_identifier < s.obj_identifier ∨
    (r.obj_identifier = s.obj_identifier ∧ r.date ≤ s.date)

instance : DecidableRel rowKeyLe := by
  intro r s
  unfold rowKeyLe
  infer_instance

instance : IsTotal StoreRow rowKeyLe := by
  constructor
  intro a b
  unfold rowKeyLe
  omega

instance : IsTrans StoreRow rowKeyLe := by
  constructor
  intro a b c
  unfold rowKeyLe
  omega

/-- The select-list unit conversion of each variable's SQL (depth:
`value * 100.0`, line 70; swe: `value * 1000.0`, line 249; air temperature:
`value`, line 734; snowfall: `value * 100.0`, line 1108; precipitation:
`value * 1000.0`, line 1299). -/
def selectValue (var : ObsVariable) (x : ℚ) : ℚ :=
  match var with
  | .depth => x * 100
  | .swe => x * 1000
  | .airTemp => x
  | .snowfall => x * 100
  | .precip => x * 1000

/-- Standard SQL semantics of the range query over a store modelled as a list
of rows: keep the rows satisfying the `WHERE` clause, ordered by
`(obj_identifier, date)`. -/
def rangeQueryRows (b e : Int) (store : List StoreRow) : List StoreRow :=
  List.insertionSort rowKeyLe (store.filter (rangeWhere b e))

/-- Projection of one selected store row through the select list of the given
variable's query. -/
def selectRow (var : ObsVariable) (s : StoreRow) : ObsRow :=
  { obj_identifier := s.obj_identifier
    station_id := s.station_id
    name := s.name
    lon := s.lon
    lat := s.lat
    elevation := s.elevation
    recorded_elevation := s.recorded_elevation
    date := s.date
    value := selectValue var (s.value.getD 0) }

/-- The full range query: filtered and ordered rows, projected through the
select list (which performs the unit conversion at the source). -/
def rangeQueryResult (var : ObsVariable) (b e : Int)
    (store : List StoreRow) : List ObsRow :=
  (rangeQueryRows b e store).map (selectRow var)

/-- The unit conversion as claimed by the specification: depth and snowfall
scaled by 100 to centimeters, SWE and precipitation by 1000 to millimeters,
air temperature passed through. -/
def convClaim (var : ObsVariable) (x : ℚ) : ℚ :=
  match var with
  | .depth => 100 * x
  | .swe => 1000 * x
  | .airTemp => x
  | .snowfall => 100 * x
  | .precip => 1000 * x

/-- Concrete fixture: a single result row used to exercise the pivot. -/
def rowC : ObsRow :=
  { obj_identifier := 3, station_id := "C", name := "Station C",
    lon := 1, lat := 2, elevation := 10, recorded_elevation := 11,
    date := 3600, value := 8 }

/-- Concrete fixture: the dictionary produced by pivoting `[rowC]` over the
window `[0, 7200]`. -/
def resultC : ObsResult :=
  { num_stations := 1, num_hours := 3, station_obj_id := [3],
    station_id := ["C"], station_name := ["Station C"],
    station_lon := [1], station_lat := [2],
    station_elevation := [10], station_rec_elevation := [11],
    obs_datetime := [0, 3600, 7200],
    values := [[mkMasked (-99999), { data := 8, mask := false },
                mkMasked (-99999)]] }

/-- Concrete fixture: a result row dated far before the query window. -/
def rowY : ObsRow :=
  { obj_identifier := 9, station_id := "Y", name := "Station Y",
    lon := 0, lat := 0, elevation := 0, recorded_elevation := 0,
    date := -36000000, value := 4 }

/-- Concrete fixture: the pivot fault raised by `[rowY]` over `[0, 7200]`. -/
def faultY : PivotFault :=
  { num_hours := 3, station_ind := 0, time_ind := -10000,
    obs := [[mkMasked (-99999), mkMasked (-99999), mkMasked (-99999)]],
    shape := (1, 3), row := rowY }

/-- Concrete fixture: a store row carrying a raw depth value of 0.254
meters. -/
def storeSTA : StoreRow :=
  { obj_identifier := 1, station_id := "STA", name := "Station",
    lon := 0, lat := 0, elevation := 0, recorded_elevation := 0,
    date := 0, value := some (254 / 1000) }

/-- Concrete fixture: the depth query's projection of `storeSTA`. -/
def rowSTA : ObsRow :=
  { obj_identifier := 1, station_id := "STA", name := "Station",
    lon := 0, lat := 0, elevation := 0, recorded_elevation := 0,
    date := 0, value := 254 / 1000 * 100 }

/-- Invariant maintained by the pivot loop: `station_ind + 1` counts the
collected stations, `obs` has one row per collected station but never fewer
than the single row it was created with, and every row of `obs` has
`num_hours` cells. -/
def StateWF (n : Nat) (st : PivotState) : Prop :=
  (st.station_ind + 1 = (st.station_obj_id.length : Int)) ∧
  st.obs.length = max 1 st.station_obj_id.length ∧
  ∀ r ∈ st.obs, r.length = n

theorem pyHourIndex_eq (s : Int) : pyHourIndex s = s / 3600 := by
  unfold pyHourIndex
  omega

theorem initState_wf (n : Nat) (ndv : ℚ) : StateWF n (initState n ndv) := by
  refine ⟨rfl, rfl, ?_⟩
  intro r hr
  simp only [initState, List.mem_singleton] at hr
  subst hr
  exact List.length_replicate n _

theorem npSet2_some_wf {obs obs2 : List (List Cell)} {si ti : Int} {v : ℚ}
    {n : Nat} (hlen : ∀ r ∈ obs, r.length = n)
    (h : npSet2 obs si ti v = some obs2) :
    obs2.length = obs.length ∧ ∀ r ∈ obs2, r.length = n := by
  unfold npSet2 at h
  cases h1 : npRowIdx obs.length si with
  | none => simp only [h1] at h; exact Option.noConfusion h
  | some s =>
    simp only [h1] at h
    cases h2 : obs.get? s with
    | none => simp only [h2] at h; exact Option.noConfusion h
    | some row =>
      simp only [h2] at h
      cases h3 : npRowIdx row.length ti with
      | none => simp only [h3] at h; exact Option.noConfusion h
      | some t =>
        simp only [h3, Option.some.injEq] at h
        subst h
        refine ⟨List.length_set .., ?_⟩
        intro r hr
        rcases List.mem_or_eq_of_mem_set hr with hmem | heq
        · exact hlen r hmem
        · subst heq
          rw [List.length_set]
          exact hlen row (List.get?_mem h2)

theorem openStation_wf {n : Nat} {ndv : ℚ} {st : PivotState} {row : ObsRow}
    (hwf : StateWF n st) : StateWF n (openStation n ndv st row) := by
  obtain ⟨h1, h2, h3⟩ := hwf
  unfold openStation
  refine ⟨?_, ?_, ?_⟩
  · simp only [List.length_append, List.length_singleton]
    omega
  · simp only [List.length_append, List.length_singleton]
    split
    · rename_i hpos
      simp only [List.length_append, List.length_singleton]
      omega
    · rename_i hneg
      omega
  · intro r hr
    simp only at hr
    split at hr
    · rcases List.mem_append.mp hr with hmem | hmem
      · exact h3 r hmem
      · rw [List.mem_singleton.mp hmem]
        exact List.length_replicate n _
    · exact h3 r hr

theorem pivotStep_wf {b : Int} {n : Nat} {ndv : ℚ} {st st2 : PivotState}
    {row : ObsRow} (hwf : StateWF n st)
    (h : pivotStep b n ndv st row = .ok st2) : StateWF n st2 := by
  unfold pivotStep at h
  simp only at h
  set stA := if row.obj_identifier ≠ st.current_station_obj_id then
      openStation n ndv st row else st with hstA
  have hwfA : StateWF n stA := by
    rw [hstA]
    split
    · exact openStation_wf hwf
    · exact hwf
  cases hns : npSet2 stA.obs stA.station_ind (slotIndex b row.date) row.value with
  | none => rw [hns] at h; exact absurd h (by simp)
  | some obs2 =>
    rw [hns] at h
    have hst2 : st2 = { stA with obs := obs2 } := by
      cases h
      rfl
    subst hst2
    obtain ⟨hl, hmem⟩ := npSet2_some_wf hwfA.2.2 hns
    exact ⟨hwfA.1, by rw [hl]; exact hwfA.2.1, hmem⟩

theorem foldl_pivot_wf {b : Int} {n : Nat} {ndv : ℚ} :
    ∀ (rows : List ObsRow) (st st2 : PivotState), StateWF n st →
      List.foldlM (pivotStep b n ndv) st rows = .ok st2 → StateWF n st2 := by
  intro rows
  induction rows with
  | nil =>
    intro st st2 hwf h
    rw [List.foldlM_nil] at h
    cases h
    exact hwf
  | cons r rs ih =>
    intro st st2 hwf h
    rw [List.foldlM_cons] at h
    cases hstep : pivotStep b n ndv st r with
    | error f =>
      rw [hstep] at h
      exact absurd h (by simp [Bind.bind, Except.bind])
    | ok st1 =>
      rw [hstep] at h
      simp only [Bind.bind, Except.bind] at h
      exact ih st1 st2 (pivotStep_wf hwf hstep) h

theorem pivotScan_wf {b : Int} {n : Nat} {ndv : ℚ} {rows : List ObsRow}
    {st2 : PivotState} (h : pivotScan b n ndv rows = .ok st2) :
    StateWF n st2 :=
  foldl_pivot_wf rows (initState n ndv) st2 (initState_wf n ndv) h

/-- C1, counterexample.  The claim says a call with a bounding box neither
reads nor writes a cache entry.  In `get_snow_depth_obs` the cache gate never
inspects the bounding box: a bounded call whose cache file exists is served
from the cache (first conjunct), and a bounded call with a 100-day-old window
and no existing file writes a cache entry (second conjunct). -/
theorem wdb0_c1_counterexample :
    snow_depth_cache_gate true true true 0 =
      { readCache := true, wroteCache := false } ∧
    snow_depth_cache_gate true true false (100 * 86400) =
      { readCache := false, wroteCache := true } := by
  exact ⟨by decide, by decide⟩

/-- C1, amended.  Bounded calls to `get_air_temp_obs` and
`get_prev_snow_depth_obs` (and the other variants that guard on
`bounding_box is None`) neither read nor write the cache; but a bounded call
to `get_snow_depth_obs` (likewise `get_swe_obs`, `get_swe_obs_df`) reads the
cache file whenever it exists and writes it whenever the window end is more
than 60 days old, exactly as an unbounded call would. -/
theorem wdb0_c1_bounding_box_cache (scratchGiven fileExists : Bool)
    (lag : Int) :
    air_temp_cache_gate true scratchGiven fileExists lag =
      { readCache := false, wroteCache := false } ∧
    prev_snow_depth_cache_gate true scratchGiven fileExists lag =
      { readCache := false, wroteCache := false } ∧
    snow_depth_cache_gate true scratchGiven fileExists lag =
      { readCache := fileExists
        wroteCache := !fileExists && decide (lag > sixtyDays) } := by
  cases fileExists <;>
    simp [air_temp_cache_gate, prev_snow_depth_cache_gate,
      snow_depth_cache_gate]

/-- C4, counterexample.  The claim says a cache entry is written only when no
bounding box was given.  A bounded `get_snow_depth_obs` call with the window
end 100 days in the past (and no preexisting cache file) does write one. -/
theorem wdb0_c4_counterexample :
    (snow_depth_cache_gate true false false (100 * 86400)).wroteCache =
      true := by
  decide

/-- C4, amended.  `get_snow_depth_obs` (and `get_swe_obs`, `get_swe_obs_df`)
writes a cache entry iff no cache file existed and the wall-clock lag past
the window end exceeds 60 days, regardless of any bounding box;
`get_air_temp_obs` and `get_prev_snow_depth_obs` write iff no bounding box
was given, the lag exceeds 60 days, and the call was not served from the
cache.  A call whose window end is 10 days in the past never writes. -/
theorem wdb0_c4_write_condition (bboxGiven scratchGiven fileExists : Bool)
    (lag : Int) :
    (snow_depth_cache_gate bboxGiven scratchGiven fileExists lag).wroteCache =
      (!fileExists && decide (lag > sixtyDays)) ∧
    (air_temp_cache_gate bboxGiven scratchGiven fileExists lag).wroteCache =
      (!bboxGiven && decide (lag > sixtyDays) && !(scratchGiven && fileExists)) ∧
    (prev_snow_depth_cache_gate bboxGiven scratchGiven fileExists lag).wroteCache =
      (!bboxGiven && decide (lag > sixtyDays) && !(scratchGiven && fileExists)) ∧
    (snow_depth_cache_gate bboxGiven scratchGiven fileExists
        (10 * 86400)).wroteCache = false ∧
    (air_temp_cache_gate bboxGiven scratchGiven fileExists
        (10 * 86400)).wroteCache = false := by
  refine ⟨?_, ?_, ?_, ?_, ?_⟩ <;>
    cases bboxGiven <;> cases scratchGiven <;> cases fileExists <;>
      simp [snow_depth_cache_gate, air_temp_cache_gate,
        prev_snow_depth_cache_gate, sixtyDays]

/-- C6, counterexample.  The claim says that without a caller-supplied cache
directory no caching happens at all.  With `scratch_dir = None` the file name
of `get_snow_depth_obs` is simply not prefixed with a directory, so the call
still writes a cache entry for a 100-day-old window (first conjunct) and is
still served from an existing cache file (second conjunct) — both in the
process's current working directory. -/
theorem wdb0_c6_counterexample :
    (snow_depth_cache_gate false false false (100 * 86400)).wroteCache =
      true ∧
    (snow_depth_cache_gate false false true 0).readCache = true := by
  exact ⟨by decide, by decide⟩

/-- C6, amended.  The absence of `scratch_dir` is not an error, but it does
not disable caching: `get_snow_depth_obs` behaves identically with and
without a scratch directory (the cache file just lands in the current
working directory), while `get_air_temp_obs` and `get_prev_snow_depth_obs`
skip the cache read (their `isfile` test is nested under
`scratch_dir is not None`) yet still write the cache file when the window is
eligible. -/
theorem wdb0_c6_no_scratch_dir (bboxGiven fileExists : Bool) (lag : Int) :
    snow_depth_cache_gate bboxGiven false fileExists lag =
      snow_depth_cache_gate bboxGiven true fileExists lag ∧
    (air_temp_cache_gate bboxGiven false fileExists lag).readCache = false ∧
    (air_temp_cache_gate false false fileExists lag).wroteCache =
      decide (lag > sixtyDays) ∧
    (prev_snow_depth_cache_gate bboxGiven false fileExists lag).readCache =
      false ∧
    (prev_snow_depth_cache_gate false false fileExists lag).wroteCache =
      decide (lag > sixtyDays) := by
  cases bboxGiven <;> cases fileExists <;>
    simp [snow_depth_cache_gate, air_temp_cache_gate,
      prev_snow_depth_cache_gate]

/-- C3, counterexample.  The claim says pivoting an empty row set yields a
matrix with zero station rows.  At `begin = 0`, `end = 14400` the pivot of
the empty row stream returns normally with `num_stations = 0` but a values
array of one (all-masked) row — the initial `np.ma.empty([1, num_hours])`
row is never removed. -/
theorem wdb0_c3_counterexample :
    (get_snow_depth_obs_pivot 0 14400 (-99999) []).result?.map
      (fun m => (m.num_stations, m.values.length)) = some (0, 1) := by
  decide

/-- C3, amended.  Pivoting an empty row set returns normally with
`num_stations = 0`, empty station metadata lists, and a values array of
exactly one row of `num_hours` cells, every cell carrying the no-data fill
value with the mask set — all-masked, but of shape `(1, num_hours)`, not
`(0, num_hours)`. -/
theorem wdb0_c3_empty_pivot (b e : Int) (ndv : ℚ) :
    get_snow_depth_obs_pivot b e ndv [] =
      .ok (finalize b (numHours b e).toNat
        (initState (numHours b e).toNat ndv)) ∧
    (finalize b (numHours b e).toNat
      (initState (numHours b e).toNat ndv)).num_stations = 0 ∧
    (finalize b (numHours b e).toNat
      (initState (numHours b e).toNat ndv)).station_obj_id = [] ∧
    (finalize b (numHours b e).toNat
      (initState (numHours b e).toNat ndv)).values =
      [List.replicate (numHours b e).toNat (mkMasked ndv)] := by
  exact ⟨rfl, rfl, rfl, rfl⟩

/-- C7: pivoting the three-row stream (station A at hour 0 with 12.0,
station A at hour 2 with 15.0, station B at hour 1 with 3.0) over the
three-hour window starting at hour 0 yields a 2-by-3 matrix with
row A = [12.0, no-data, 15.0] and row B = [no-data, 3.0, no-data], stations
ordered A then B by first appearance. -/
theorem wdb0_c7_pivot_scenario :
    get_snow_depth_obs_pivot 0 7200 (-99999)
      [{ obj_identifier := 1, station_id := "A", name := "Station A",
         lon := 0, lat := 0, elevation := 0, recorded_elevation := 0,
         date := 0, value := 12 },
       { obj_identifier := 1, station_id := "A", name := "Station A",
         lon := 0, lat := 0, elevation := 0, recorded_elevation := 0,
         date := 7200, value := 15 },
       { obj_identifier := 2, station_id := "B", name := "Station B",
         lon := 0, lat := 0, elevation := 0, recorded_elevation := 0,
         date := 3600, value := 3 }] =
    .ok { num_stations := 2
          num_hours := 3
          station_obj_id := [1, 2]
          station_id := ["A", "B"]
          station_name := ["Station A", "Station B"]
          station_lon := [0, 0]
          station_lat := [0, 0]
          station_elevation := [0, 0]
          station_rec_elevation := [0, 0]
          obs_datetime := [0, 3600, 7200]
          values :=
            [[{ data := 12, mask := false }, { data := -99999, mask := true },
              { data := 15, mask := false }],
             [{ data := -99999, mask := true }, { data := 3, mask := false },
              { data := -99999, mask := true }]] } := by
  decide

/-- C2, counterexample.  The claim says the values array has shape
`(num_stations, len(time_axis))` even for an empty row stream (then with
`num_stations = 0`).  At `begin = 0`, `end = 7200` the empty row stream
yields `values.shape[0] = 1` while `num_stations = 0`. -/
theorem wdb0_c2_counterexample :
    (get_snow_depth_obs_pivot 0 7200 (-99999) []).result?.map
      (fun m => (m.values.length, m.num_stations)) = some (1, 0) := by
  decide

theorem mem_rangeQueryRows {b e : Int} {store : List StoreRow} {r : StoreRow} :
    r ∈ rangeQueryRows b e store ↔
      (r ∈ store ∧ b ≤ r.date ∧ r.date ≤ e ∧ r.value.isSome = true) := by
  unfold rangeQueryRows
  rw [(List.perm_insertionSort rowKeyLe _).mem_iff, List.mem_filter]
  unfold rangeWhere
  simp [Bool.and_eq_true, decide_eq_true_eq, and_assoc]

/-- C2, amended.  For every Range query with `begin <= end` that returns
normally, the time axis has exactly `floor((end - begin) in hours) + 1`
slots, `num_stations` equals the number of collected station entries, every
row of the values array has `len(time_axis)` cells, and the values array has
`max(1, num_stations)` rows: one row per station when the row stream is
nonempty, but a single (all-masked) row — not zero rows — when the row
stream is empty, in which case `num_stations = 0`. -/
theorem wdb0_c2_range_shape (b e : Int) (ndv : ℚ) (rows : List ObsRow)
    (m : ObsResult) (hbe : b ≤ e)
    (hok : get_snow_depth_obs_pivot b e ndv rows = .ok m) :
    ((m.obs_datetime.length : Int) = (e - b) / 3600 + 1 ∧
     m.num_stations = (m.station_obj_id.length : Int) ∧
     m.values.length = max 1 m.station_obj_id.length ∧
     (∀ r ∈ m.values, r.length = m.obs_datetime.length) ∧
     (rows = [] → m.num_stations = 0)) := by
  unfold get_snow_depth_obs_pivot at hok
  cases hscan : pivotScan b (numHours b e).toNat ndv rows with
  | error f => rw [hscan] at hok; exact absurd hok (by simp)
  | ok st =>
    rw [hscan] at hok
    have hm : m = finalize b (numHours b e).toNat st := by
      cases hok
      rfl
    subst hm
    obtain ⟨hw1, hw2, hw3⟩ := pivotScan_wf hscan
    have hlen : (finalize b (numHours b e).toNat st).obs_datetime.length =
        (numHours b e).toNat := by
      unfold finalize
      rw [List.length_map, List.length_range]
    have hnum : numHours b e = (e - b) / 3600 + 1 := by
      unfold numHours
      rw [pyHourIndex_eq]
    refine ⟨?_, ?_, ?_, ?_, ?_⟩
    · rw [hlen]
      omega
    · exact hw1
    · exact hw2
    · intro r hr
      rw [hlen]
      exact hw3 r hr
    · intro hnil
      subst hnil
      have hst : (Except.ok (initState (numHours b e).toNat ndv) :
          Except PivotFault PivotState) = Except.ok st := hscan
      cases hst
      rfl

/-- C2, witness for the amended theorem at a concrete input: a single-row
stream over the window `[0, 7200]`. -/
theorem wdb0_c2_range_shape_witness :
    ((0 : Int) ≤ 7200 ∧
     get_snow_depth_obs_pivot 0 7200 (-99999) [rowC] = .ok resultC) ∧
    (((resultC.obs_datetime.length : Int) = (7200 - 0) / 3600 + 1) ∧
     resultC.num_stations = (resultC.station_obj_id.length : Int) ∧
     resultC.values.length = max 1 resultC.station_obj_id.length ∧
     (∀ r ∈ resultC.values, r.length = resultC.obs_datetime.length) ∧
     ([rowC] = ([] : List ObsRow) → resultC.num_stations = 0)) :=
  ⟨⟨by decide, by decide⟩,
   wdb0_c2_range_shape 0 7200 (-99999) [rowC] resultC (by decide) (by decide)⟩

/-- C5, counterexample.  The claim says an out-of-range slot index is
reported to the caller and does not terminate the whole process.  A row one
hour past the window end (slot index 3 in a 3-slot axis) raises an
`IndexError` in `obs[station_ind, time_ind] = ...`; the `except` branch of
`get_snow_depth_obs` prints the diagnostics and then calls `exit(1)` —
modelled by the `exit1` outcome — terminating the process instead of
reporting a fault to the caller. -/
theorem wdb0_c5_counterexample :
    get_snow_depth_obs_pivot 0 7200 (-99999)
      [{ obj_identifier := 7, station_id := "X", name := "Station X",
         lon := 0, lat := 0, elevation := 0, recorded_elevation := 0,
         date := 10800, value := 1 }] =
    .exit1 { num_hours := 3, station_ind := 0, time_ind := 3,
             obs := [[mkMasked (-99999), mkMasked (-99999),
                      mkMasked (-99999)]],
             shape := (1, 3),
             row := { obj_identifier := 7, station_id := "X",
                      name := "Station X", lon := 0, lat := 0,
                      elevation := 0, recorded_elevation := 0,
                      date := 10800, value := 1 } } := by
  decide

/-- C5, amended.  When the scan of the row stream fails with a pivot fault
(slot index outside `[-num_hours, num_hours)`), the fault context — the
printed `num_hours`, `(station_ind, time_ind)`, matrix and shape, and the
offending row — is produced, and then `get_snow_depth_obs` terminates the
process via `exit(1)` while `get_swe_obs` lets the `IndexError` propagate
unhandled; neither reports a catchable fault to the caller, and neither
silently drops the row. -/
theorem wdb0_c5_fault_outcomes (b e : Int) (ndv : ℚ) (rows : List ObsRow)
    (f : PivotFault)
    (herr : pivotScan b (numHours b e).toNat ndv rows = .error f) :
    get_snow_depth_obs_pivot b e ndv rows = .exit1 f ∧
    get_swe_obs_pivot b e ndv rows = .unhandled f := by
  unfold get_snow_depth_obs_pivot get_swe_obs_pivot
  rw [herr]
  exact ⟨rfl, rfl⟩

/-- C5, witness for the amended theorem: a row far before the window makes
the scan fail with an explicit fault record, which `get_snow_depth_obs`
turns into a process exit and `get_swe_obs` into an unhandled error. -/
theorem wdb0_c5_fault_outcomes_witness :
    (pivotScan 0 (numHours 0 7200).toNat (-99999) [rowY] = .error faultY) ∧
    (get_snow_depth_obs_pivot 0 7200 (-99999) [rowY] = .exit1 faultY ∧
     get_swe_obs_pivot 0 7200 (-99999) [rowY] = .unhandled faultY) :=
  ⟨rfl, wdb0_c5_fault_outcomes 0 7200 (-99999) [rowY] faultY rfl⟩

/-- C8: the range query selects exactly the store rows of the requested
variable's relation whose timestamp lies in the closed interval
`[begin, end]` (end inclusive) and whose value is not NULL, ordered by
`(obj_identifier, date)` ascending. -/
theorem wdb0_c8_range_query (b e : Int) (store : List StoreRow) :
    List.Sorted rowKeyLe (rangeQueryRows b e store) ∧
    ∀ r : StoreRow, r ∈ rangeQueryRows b e store ↔
      (r ∈ store ∧ b ≤ r.date ∧ r.date ≤ e ∧ r.value.isSome = true) :=
  ⟨List.sorted_insertionSort rowKeyLe _, fun _ => mem_rangeQueryRows⟩

/-- C9: every row of a query result carries the source row's station and
timestamp with its value unit-converted at the source: depth and snowfall
scaled by 100, SWE and precipitation by 1000, air temperature passed
through; concretely, a raw depth value of 0.254 yields 25.4 in the
output. -/
theorem wdb0_c9_unit_conversion :
    (∀ (var : ObsVariable) (b e : Int) (store : List StoreRow) (i : Nat)
       (r : ObsRow) (s : StoreRow),
       (rangeQueryResult var b e store).get? i = some r →
       (rangeQueryRows b e store).get? i = some s →
       r.obj_identifier = s.obj_identifier ∧ r.date = s.date ∧
         r.value = convClaim var (s.value.getD 0)) ∧
    (rangeQueryResult .depth 0 0
      [{ obj_identifier := 1, station_id := "STA", name := "Station",
         lon := 0, lat := 0, elevation := 0, recorded_elevation := 0,
         date := 0, value := some (254 / 1000) }]).map ObsRow.value =
      [254 / 10] := by
  constructor
  · intro var b e store i r s hr hs
    unfold rangeQueryResult at hr
    rw [List.get?_map, hs] at hr
    simp only [Option.map_some', Option.some.injEq] at hr
    subst hr
    refine ⟨rfl, rfl, ?_⟩
    cases var <;> simp [selectRow, selectValue, convClaim, mul_comm]
  · show [(254 : ℚ) / 1000 * 100] = [254 / 10]
    norm_num

theorem npSet2_singleton_neg (n : Nat) (ndv v : ℚ) (ti : Int)
    (hneg : ti < 0) (hmag : -(n : Int) ≤ ti) :
    npSet2 [List.replicate n (mkMasked ndv)] 0 ti v =
      some [(List.replicate n (mkMasked ndv)).set ((n : Int) + ti).toNat
        { data := v, mask := false }] := by
  unfold npSet2
  have h0 : npRowIdx ([List.replicate n (mkMasked ndv)] :
      List (List Cell)).length 0 = some 0 := by
    unfold npRowIdx
    norm_num
  simp only [h0]
  have h1 : ([List.replicate n (mkMasked ndv)] :
      List (List Cell)).get? 0 = some (List.replicate n (mkMasked ndv)) := rfl
  simp only [h1]
  have h2 : npRowIdx (List.replicate n (mkMasked ndv)).length ti =
      some ((n : Int) + ti).toNat := by
    rw [List.length_replicate]
    unfold npRowIdx
    rw [if_neg (by omega), if_pos ⟨hmag, hneg⟩]
  simp only [h2]
  rfl

theorem openStation_init_obs (n : Nat) (ndv : ℚ) (row : ObsRow) :
    (openStation n ndv (initState n ndv) row).obs =
      [List.replicate n (mkMasked ndv)] := by
  norm_num [openStation, initState]

theorem openStation_init_station_ind (n : Nat) (ndv : ℚ) (row : ObsRow) :
    (openStation n ndv (initState n ndv) row).station_ind = 0 := by
  norm_num [openStation, initState]

/-- C10: in a Range-query pivot, a row dated strictly before `begin` gets a
negative slot index; whenever its magnitude is at most `num_hours` the numpy
assignment silently wraps around: the pivot returns normally (no exception,
no diagnostic) and the row's value sits in the slot `num_hours + time_ind`,
counted from the end of the time axis. -/
theorem wdb0_c10_negative_slot (b e : Int) (ndv : ℚ) (row : ObsRow)
    (hbe : b ≤ e) (hearly : row.date < b)
    (hmag : -(numHours b e) ≤ slotIndex b row.date)
    (hobj : row.obj_identifier ≠ -1) :
    slotIndex b row.date < 0 ∧
    (get_snow_depth_obs_pivot b e ndv [row]).result?.map ObsResult.values =
      some [(List.replicate (numHours b e).toNat (mkMasked ndv)).set
        (numHours b e + slotIndex b row.date).toNat
        { data := row.value, mask := false }] := by
  have hnum : numHours b e = (e - b) / 3600 + 1 := by
    unfold numHours
    rw [pyHourIndex_eq]
  have hti : slotIndex b row.date = (row.date - b) / 3600 := by
    unfold slotIndex
    rw [pyHourIndex_eq]
  have h1 : slotIndex b row.date < 0 := by
    rw [hti]
    omega
  have hpos : 0 < numHours b e := by
    rw [hnum]
    omega
  have hcast : (((numHours b e).toNat : Nat) : Int) = numHours b e :=
    Int.toNat_of_nonneg hpos.le
  refine ⟨h1, ?_⟩
  have hobj' : row.obj_identifier ≠
      (initState (numHours b e).toNat ndv).current_station_obj_id := hobj
  have hmag' : -(((numHours b e).toNat : Nat) : Int) ≤ slotIndex b row.date := by
    rw [hcast]
    exact hmag
  have hstep : pivotStep b (numHours b e).toNat ndv
      (initState (numHours b e).toNat ndv) row =
      .ok { openStation (numHours b e).toNat ndv
              (initState (numHours b e).toNat ndv) row with
            obs := [(List.replicate (numHours b e).toNat (mkMasked ndv)).set
              ((((numHours b e).toNat : Nat) : Int) +
                slotIndex b row.date).toNat
              { data := row.value, mask := false }] } := by
    unfold pivotStep
    simp only [if_pos hobj', openStation_init_obs, openStation_init_station_ind,
      npSet2_singleton_neg (numHours b e).toNat ndv row.value
        (slotIndex b row.date) h1 hmag']
  unfold get_snow_depth_obs_pivot pivotScan
  rw [List.foldlM_cons]
  rw [hstep]
  simp only [Bind.bind, Except.bind, List.foldlM_nil]
  simp only [pure, PivotOutcome.result?, finalize, Option.map_some']
  rw [hcast]
  rfl

/-- C10, witness: window `[0, 7200]` (three slots) and a row dated one hour
before the window start; the value lands in the last slot. -/
theorem wdb0_c10_negative_slot_witness :
    ((0 : Int) ≤ 7200 ∧
     ({ obj_identifier := 5, station_id := "W", name := "Station W",
        lon := 0, lat := 0, elevation := 0, recorded_elevation := 0,
        date := -3600, value := 7 } : ObsRow).date < 0 ∧
     -(numHours 0 7200) ≤ slotIndex 0
       ({ obj_identifier := 5, station_id := "W", name := "Station W",
          lon := 0, lat := 0, elevation := 0, recorded_elevation := 0,
          date := -3600, value := 7 } : ObsRow).date ∧
     ({ obj_identifier := 5, station_id := "W", name := "Station W",
        lon := 0, lat := 0, elevation := 0, recorded_elevation := 0,
        date := -3600, value := 7 } : ObsRow).obj_identifier ≠ -1) ∧
    (slotIndex 0
       ({ obj_identifier := 5, station_id := "W", name := "Station W",
          lon := 0, lat := 0, elevation := 0, recorded_elevation := 0,
          date := -3600, value := 7 } : ObsRow).date < 0 ∧
     (get_snow_depth_obs_pivot 0 7200 (-99999)
        [{ obj_identifier := 5, station_id := "W", name := "Station W",
           lon := 0, lat := 0, elevation := 0, recorded_elevation := 0,
           date := -3600, value := 7 }]).result?.map ObsResult.values =
       some [(List.replicate (numHours 0 7200).toNat (mkMasked (-99999))).set
         (numHours 0 7200 + slotIndex 0
           ({ obj_identifier := 5, station_id := "W", name := "Station W",
              lon := 0, lat := 0, elevation := 0, recorded_elevation := 0,
              date := -3600, value := 7 } : ObsRow).date).toNat
         { data := ({ obj_identifier := 5, station_id := "W",
                      name := "Station W", lon := 0, lat := 0, elevation := 0,
                      recorded_elevation := 0, date := -3600,
                      value := 7 } : ObsRow).value, mask := false }]) :=
  ⟨⟨by decide, by decide, by decide, by decide⟩,
   wdb0_c10_negative_slot 0 7200 (-99999)
     { obj_identifier := 5, station_id := "W", name := "Station W",
       lon := 0, lat := 0, elevation := 0, recorded_elevation := 0,
       date := -3600, value := 7 }
     (by decide) (by decide) (by decide) (by decide)⟩

/-- C9, witness for the universally quantified part at a concrete store:
the depth query over a one-row store with raw value 0.254 meters. -/
theorem wdb0_c9_unit_conversion_witness :
    ((rangeQueryResult .depth 0 0 [storeSTA]).get? 0 = some rowSTA) ∧
    ((rangeQueryRows 0 0 [storeSTA]).get? 0 = some storeSTA) ∧
    (rowSTA.obj_identifier = storeSTA.obj_identifier ∧
     rowSTA.date = storeSTA.date ∧
     rowSTA.value = convClaim .depth (storeSTA.value.getD 0)) :=
  ⟨rfl, rfl,
   wdb0_c9_unit_conversion.1 .depth 0 0 [storeSTA] 0 rowSTA storeSTA rfl rfl⟩

end Wdb0
